import Mathlib

/-!
Verification development for `flocker.control.testtools`
(`src/flocker/control/testtools.py`), the testing toolkit of the flocker
cluster control plane: the `IStatePersister` conformance suite
(`make_istatepersister_tests`), the service wiring helper
(`build_control_amp_service`), and the hypothesis strategies
(`persistent_state_strategy`, `lease_strategy`, `node_strategy`,
`deployment_strategy`).

UUIDs are embedded as `Nat` (only identity/equality of UUIDs matters),
blockdevice ids (opaque handles, hypothesis `text()`) as `String`,
datetimes as `Int`.  Python `dict`s are embedded as insertion-ordered
association lists built by `pyDict`, which reproduces CPython semantics:
assigning to an existing key overwrites the value in place (keeping the
key's original position), assigning a fresh key appends at the end.
-/

/-- Dataset / node identifiers: `uuid.UUID` values, embedded by identity. -/
abbrev Uuid := Nat

/-- Opaque blockdevice identifiers (hypothesis `text()` draws). -/
abbrev BlockdeviceId := String

section PyDict

variable {α : Type} {β : Type} [DecidableEq α]

/-- One CPython `dict` assignment `d[k] = v` on an insertion-ordered
association list with unique keys: overwrite in place if the key is
present, append otherwise. -/
def insertPy (d : List (α × β)) (k : α) (v : β) : List (α × β) :=
  match d with
  | [] => [(k, v)]
  | p :: rest => if p.1 = k then (k, v) :: rest else p :: insertPy rest k v

/-- The CPython `dict` built from a sequence of key/value assignments in
order (dict comprehensions and assignment loops): later assignments to
the same key overwrite earlier ones. -/
def pyDict (ps : List (α × β)) : List (α × β) :=
  ps.foldl (fun d p => insertPy d p.1 p.2) []

/-- CPython `d[k]` / `d.get(k)` on an association list: the first (and,
for `pyDict`-built lists, only) binding of `k`. -/
def lookupPy (d : List (α × β)) (k : α) : Option β :=
  match d with
  | [] => none
  | p :: rest => if p.1 = k then some p.2 else lookupPy rest k

/-- The value of the LAST binding of `k` in a raw assignment sequence. -/
def lastAssoc (ps : List (α × β)) (k : α) : Option β :=
  lookupPy ps.reverse k

theorem lookupPy_append (xs ys : List (α × β)) (k : α) :
    lookupPy (xs ++ ys) k = (lookupPy xs k).orElse (fun _ => lookupPy ys k) := by
  induction xs with
  | nil => simp [lookupPy, Option.orElse]
  | cons p rest ih =>
      by_cases h : p.1 = k <;> simp [lookupPy, h, ih, Option.orElse]

theorem lookupPy_insertPy (d : List (α × β)) (k : α) (v : β) (k' : α) :
    lookupPy (insertPy d k v) k' = if k = k' then some v else lookupPy d k' := by
  induction d with
  | nil => simp [insertPy, lookupPy]
  | cons p rest ih =>
      by_cases hpk : p.1 = k
      · by_cases hkk : k = k' <;>
          simp [insertPy, lookupPy, hpk, hkk]
      · by_cases hpk' : p.1 = k'
        · have hkk : ¬ k = k' := fun h => hpk (h ▸ hpk')
          have hk'k : ¬ k' = k := fun h => hkk h.symm
          simp [insertPy, lookupPy, hpk, hpk', hkk, hk'k]
        · simp [insertPy, lookupPy, hpk, hpk', ih]

theorem lookupPy_foldl_insertPy (ps : List (α × β)) (d : List (α × β)) (k : α) :
    lookupPy (ps.foldl (fun d p => insertPy d p.1 p.2) d) k
      = (lastAssoc ps k).orElse (fun _ => lookupPy d k) := by
  induction ps generalizing d with
  | nil => simp [lastAssoc, lookupPy, Option.orElse]
  | cons q rest ih =>
      have hq : lastAssoc (q :: rest) k
          = (lastAssoc rest k).orElse (fun _ => lookupPy [q] k) := by
        simp only [lastAssoc, List.reverse_cons]
        exact lookupPy_append rest.reverse [q] k
      rw [List.foldl_cons, ih, hq, lookupPy_insertPy]
      cases hrest : lastAssoc rest k with
      | some v => simp [Option.orElse]
      | none =>
          by_cases hqk : q.1 = k <;> simp [lookupPy, hqk, Option.orElse]

/-- Looking a key up in a CPython dict yields the value of the LAST
assignment of that key (later assignments overwrite earlier ones). -/
theorem lookupPy_pyDict (ps : List (α × β)) (k : α) :
    lookupPy (pyDict ps) k = lastAssoc ps k := by
  have h := lookupPy_foldl_insertPy ps [] k
  cases hps : lastAssoc ps k <;> simp [pyDict, hps, lookupPy, Option.orElse] at h ⊢ <;>
    exact h

theorem mem_insertPy (d : List (α × β)) (k : α) (v : β) (p : α × β) :
    p ∈ insertPy d k v → p ∈ d ∨ p = (k, v) := by
  induction d with
  | nil => intro h; simp [insertPy] at h; exact Or.inr h
  | cons q rest ih =>
      by_cases hq : q.1 = k
      · intro h
        simp only [insertPy, hq, if_pos rfl] at h
        rcases List.mem_cons.mp h with h | h
        · exact Or.inr h
        · exact Or.inl (List.mem_cons_of_mem _ h)
      · intro h
        simp only [insertPy, hq, if_neg hq] at h
        rcases List.mem_cons.mp h with h | h
        · exact Or.inl (h ▸ List.mem_cons_self _ _)
        · rcases ih h with h' | h'
          · exact Or.inl (List.mem_cons_of_mem _ h')
          · exact Or.inr h'

theorem mem_foldl_insertPy (ps : List (α × β)) (d : List (α × β)) (p : α × β) :
    p ∈ ps.foldl (fun d q => insertPy d q.1 q.2) d → p ∈ d ∨ p ∈ ps := by
  induction ps generalizing d with
  | nil => intro h; exact Or.inl h
  | cons q rest ih =>
      intro h
      rw [List.foldl_cons] at h
      rcases ih _ h with h' | h'
      · rcases mem_insertPy d q.1 q.2 p h' with h'' | h''
        · exact Or.inl h''
        · exact Or.inr (h'' ▸ List.mem_cons_self _ _)
      · exact Or.inr (List.mem_cons_of_mem _ h')

/-- Every entry of a CPython dict is one of the assignments that built it. -/
theorem mem_pyDict (ps : List (α × β)) (p : α × β) : p ∈ pyDict ps → p ∈ ps := by
  intro h
  rcases mem_foldl_insertPy ps [] p h with h' | h'
  · cases h'
  · exact h'

theorem keys_insertPy (d : List (α × β)) (k : α) (v : β) (k' : α) :
    k' ∈ (insertPy d k v).map Prod.fst ↔ k' = k ∨ k' ∈ d.map Prod.fst := by
  induction d with
  | nil => simp [insertPy]
  | cons q rest ih =>
      by_cases hq : q.1 = k
      · subst hq
        simp [insertPy]
      · simp [insertPy, hq, ih]
        tauto

theorem nodupKeys_insertPy (d : List (α × β)) (k : α) (v : β)
    (h : (d.map Prod.fst).Nodup) : ((insertPy d k v).map Prod.fst).Nodup := by
  induction d with
  | nil => simp [insertPy]
  | cons q rest ih =>
      rw [List.map_cons, List.nodup_cons] at h
      by_cases hq : q.1 = k
      · subst hq
        have he : insertPy (q :: rest) q.1 v = (q.1, v) :: rest := by
          simp [insertPy]
        rw [he, List.map_cons, List.nodup_cons]
        exact ⟨h.1, h.2⟩
      · simp only [insertPy, if_neg hq, List.map_cons, List.nodup_cons]
        refine ⟨fun hc => ?_, ih h.2⟩
        rcases (keys_insertPy rest k v q.1).mp hc with h' | h'
        · exact hq h'
        · exact h.1 h'

theorem nodupKeys_foldl_insertPy (ps : List (α × β)) (d : List (α × β))
    (h : (d.map Prod.fst).Nodup) :
    ((ps.foldl (fun d q => insertPy d q.1 q.2) d).map Prod.fst).Nodup := by
  induction ps generalizing d with
  | nil => exact h
  | cons q rest ih => exact ih _ (nodupKeys_insertPy d q.1 q.2 h)

/-- A CPython dict has no duplicate keys. -/
theorem nodupKeys_pyDict (ps : List (α × β)) : ((pyDict ps).map Prod.fst).Nodup :=
  nodupKeys_foldl_insertPy ps [] List.nodup_nil

theorem keys_foldl_insertPy (ps : List (α × β)) (d : List (α × β)) (k : α) :
    k ∈ ((ps.foldl (fun d q => insertPy d q.1 q.2) d).map Prod.fst)
      ↔ k ∈ ps.map Prod.fst ∨ k ∈ d.map Prod.fst := by
  induction ps generalizing d with
  | nil => simp
  | cons q rest ih =>
      rw [List.foldl_cons, ih, keys_insertPy]
      simp only [List.map_cons, List.mem_cons]
      tauto

/-- The key set of a CPython dict is the set of keys assigned while
building it. -/
theorem keys_pyDict (ps : List (α × β)) (k : α) :
    k ∈ (pyDict ps).map Prod.fst ↔ k ∈ ps.map Prod.fst := by
  rw [pyDict, keys_foldl_insertPy]
  simp

end PyDict

/-! ## State persister (`IStatePersister` / `record_ownership`)

`make_istatepersister_tests` (src/flocker/control/testtools.py, lines
44-112) builds a conformance TestCase from a fixture producing an
`IStatePersister` provider together with a 0-argument `get_state`
callable returning the current `PersistentState`.  We embed an
implementation as a state-passing function over the
`blockdevice_ownership` ledger: it returns the call's outcome together
with the ledger visible through `get_state` afterwards. -/

/-- Failure raised when a dataset is already bound to a different
blockdevice (`flocker.control._model.DatasetAlreadyOwned`). -/
inductive PersistError
  | datasetAlreadyOwned
  deriving DecidableEq, Repr

/-- The `blockdevice_ownership` ledger of a `PersistentState`: a mapping
from dataset UUID to blockdevice id, embedded as a `pyDict`-style
association list. -/
abbrev Ledger := List (Uuid × BlockdeviceId)

/-- An `IStatePersister` implementation together with its `get_state`
read-back: from a current ledger and the call's arguments, the outcome of
`record_ownership` and the ledger visible afterwards. -/
abbrev Persister := Ledger → Uuid → BlockdeviceId → Except PersistError Unit × Ledger

/-- Modelled from the spec: the `IStatePersister.record_ownership`
operation (its implementations, e.g.
`flocker.control._registry.InMemoryStatePersister`, are not under src/).
Spec section 4.1: on a fresh `dataset_id` the ledger gains
`dataset_id → handle`; called again with the identical pair it is
idempotent; if `dataset_id` is already bound to a different handle it
fails with `AlreadyOwned` and the ledger is left unchanged. -/
def record_ownership : Persister := fun state dataset_id blockdevice_id =>
  match lookupPy state dataset_id with
  | none => (Except.ok (), state ++ [(dataset_id, blockdevice_id)])
  | some existing =>
      if existing = blockdevice_id then
        (Except.ok (), state)
      else
        (Except.error PersistError.datasetAlreadyOwned, state)

/-- The property checked by
`IStatePersisterTests.test_records_blockdeviceid` (src lines 64-82):
for every drawn `dataset_id` and `blockdevice_id`, against a fresh
persister the call succeeds and `get_state().blockdevice_ownership`
then maps `dataset_id` to `blockdevice_id`. -/
def test_records_blockdeviceid (rec : Persister) : Prop :=
  ∀ dataset_id blockdevice_id,
    (rec [] dataset_id blockdevice_id).1 = Except.ok () ∧
    lookupPy (rec [] dataset_id blockdevice_id).2 dataset_id = some blockdevice_id

/-- The property checked by
`IStatePersisterTests.test_duplicate_blockdevice_id` (src lines 84-110):
for every drawn `dataset_id` and two DISTINCT blockdevice ids (the test
body starts with `assume(blockdevice_id != other_blockdevice_id)`),
against a fresh persister the first call succeeds, the second call with
the other id fails with `DatasetAlreadyOwned`, and
`get_state().blockdevice_ownership` still maps `dataset_id` to the first
id. -/
def test_duplicate_blockdevice_id (rec : Persister) : Prop :=
  ∀ dataset_id blockdevice_id other_blockdevice_id,
    blockdevice_id ≠ other_blockdevice_id →
    (rec [] dataset_id blockdevice_id).1 = Except.ok () ∧
    (rec (rec [] dataset_id blockdevice_id).2
        dataset_id other_blockdevice_id).1
      = Except.error PersistError.datasetAlreadyOwned ∧
    lookupPy (rec (rec [] dataset_id blockdevice_id).2
        dataset_id other_blockdevice_id).2 dataset_id
      = some blockdevice_id

/-- The two hypothesis-driven properties asserted by the conformance
suite returned by `make_istatepersister_tests` (the remaining test,
`test_interface`, checks zope.interface compliance and carries no
behavioural content). -/
def istatepersister_suite (rec : Persister) : Prop :=
  test_records_blockdeviceid rec ∧ test_duplicate_blockdevice_id rec

/-- An `IStatePersister` implementation that rejects EVERY repeated
`record_ownership` of a dataset_id, even with the identical
blockdevice_id: it is not idempotent on the identical pair. -/
def rejectRepeatPersister : Persister := fun state dataset_id blockdevice_id =>
  match lookupPy state dataset_id with
  | none => (Except.ok (), state ++ [(dataset_id, blockdevice_id)])
  | some _ => (Except.error PersistError.datasetAlreadyOwned, state)

/-! ## Model value types and hypothesis strategies

The model classes (`Node`, `Lease`, `PersistentState`, `Deployment`,
from `flocker.control._model`) are not under src/; they are modelled
from the spec below.  The strategies themselves
(`persistent_state_strategy`, `lease_strategy`, `node_strategy`,
`deployment_strategy`, src lines 154-211) are embedded as functions of
their hypothesis draws: every random choice the strategy makes is a
parameter, so a theorem over all parameter values covers every value the
strategy can generate. -/

/-- Modelled from the spec: a Node is identified by a UUID and carries
the set of dataset manifestations believed present on it (spec section
3); constructed from a uuid alone — as `node_strategy` does — the
manifestation set is empty. -/
structure Node where
  uuid : Uuid
  manifestations : List Uuid := []
  deriving DecidableEq, Repr

/-- Modelled from the spec: a Lease is a `(dataset_id, node_id,
expiration)` triple (spec section 3). -/
structure Lease where
  dataset_id : Uuid
  node_id : Uuid
  expiration : Int
  deriving DecidableEq, Repr

/-- Modelled from the spec: `PersistentState` holds
`blockdevice_ownership`, a mapping from dataset UUID to blockdevice
handle (spec section 3); constructed with no arguments —
`PersistentState()` — the ledger is empty (spec section 4.2: the default
state is empty). -/
structure PersistentState where
  blockdevice_ownership : Ledger := []
  deriving DecidableEq, Repr

/-- Modelled from the spec: a Deployment maps node UUIDs to Nodes and
dataset UUIDs to Leases (unique keys), and carries a `PersistentState`
(spec section 3).  Both mappings are insertion-ordered `pyDict`s. -/
structure Deployment where
  nodes : List (Uuid × Node)
  leases : List (Uuid × Lease)
  persistent_state : PersistentState
  deriving DecidableEq, Repr

/-- `persistent_state_strategy` (src lines 154-156): a composite
strategy whose body ignores its `draw` argument and returns
`PersistentState()`.  The unused entropy is the `d` parameter. -/
def persistent_state_strategy (_entropy : Nat) : PersistentState :=
  PersistentState.mk []

/-- `lease_strategy` (src lines 159-165): builds a
`Lease(dataset_id=..., node_id=..., expiration=...)` from its draws.
The `dataset_id` and `node_id` draws come from the strategies passed as
keyword arguments (by default `st.uuids()`), the expiration from
`datetimes()`. -/
def lease_strategy (dataset_id : Uuid) (node_id : Uuid) (expiration : Int) : Lease :=
  Lease.mk dataset_id node_id expiration

/-- `node_strategy` (src lines 168-172): builds a node from a drawn
uuid only: `Node(uuid=draw(st.uuids()))`. -/
def node_strategy (u : Uuid) : Node :=
  { uuid := u }

/-- The `dataset_id_node_mapping` dict built by `deployment_strategy`
(src lines 185-188): for each node in order, for each of its
manifestations in order, assign `dataset_id → node.uuid`. -/
def dataset_id_node_mapping (nodes : List Node) : List (Uuid × Uuid) :=
  pyDict ((nodes.map (fun n => n.manifestations.map (fun d => (d, n.uuid)))).flatten)

/-- The pairs selected by the generator
`(dataset_id_node_mapping.items()[i] for i in lease_indexes)` (src line
204), as a function of one concrete iteration order `items` of the
mapping and of the drawn indexes. -/
def selected_lease_pairs (items : List (Uuid × Uuid)) (lease_indexes : List Nat) :
    List (Uuid × Uuid) :=
  lease_indexes.filterMap (fun i => items.get? i)

/-- Errors a hypothesis draw can die with while `deployment_strategy`
runs. -/
inductive DrawError
  | typeError
  deriving DecidableEq, Repr

/-- All random choices `deployment_strategy` makes: the uuids drawn for
the node list, the set of lease indexes (drawn only when
`dataset_id_node_mapping` is non-empty; a Python `set` of ints, kept
here in its iteration order), and the entropy handed to
`persistent_state_strategy`. -/
structure DeploymentDraw where
  nodeUuids : List Uuid
  leaseIndexes : List Nat
  psEntropy : Nat
  deriving DecidableEq, Repr

/-- The size constraint `st.lists(node_strategy(), min_size=m,
average_size=max(m, 5), max_size=max(m, 1000))` puts on the drawn node
list (src lines 177-184); `average_size` does not constrain values. -/
def drawValid (draw : DeploymentDraw) (min_number_of_nodes : Nat) : Prop :=
  min_number_of_nodes ≤ draw.nodeUuids.length ∧
  draw.nodeUuids.length ≤ max min_number_of_nodes 1000

/-- `deployment_strategy` (src lines 175-211) as a function of its
draws.  It draws the node list, builds `dataset_id_node_mapping` by the
assignment loop, draws `lease_indexes` only if the mapping is non-empty,
then evaluates the lease list comprehension.  When `lease_indexes` is
non-empty the comprehension calls
`lease_strategy(dataset_id=st.just(dataset_id), node_uuid=st.just(node_uuid))`
(src lines 198-202): `lease_strategy` has no parameter named
`node_uuid` (its parameter is `node_id`, src line 160), so evaluating
that call raises `TypeError` and the draw dies — embedded as
`Except.error DrawError.typeError`.  When `lease_indexes` is empty the
comprehension yields no leases and the `Deployment` is built. -/
def deployment_strategy (draw : DeploymentDraw) : Except DrawError Deployment :=
  let nodes := draw.nodeUuids.map node_strategy
  let mapping := dataset_id_node_mapping nodes
  let lease_indexes := if 0 < mapping.length then draw.leaseIndexes else []
  if lease_indexes.isEmpty then
    Except.ok
      { nodes := pyDict (nodes.map (fun n => (n.uuid, n)))
        leases := pyDict (([] : List Lease).map (fun l => (l.dataset_id, l)))
        persistent_state := persistent_state_strategy draw.psEntropy }
  else
    Except.error DrawError.typeError

/-! ## Service wiring (`build_control_amp_service`)

The service classes (`ClusterStateService`,
`ConfigurationPersistenceService`, `ControlAMPService`) are not under
src/; what matters to the wiring claim is only WHICH reactor each
constructor receives, so each service is modelled as a record holding
its injected reactor.  Modelled from the spec: the time source of the
time-dependent services is injectable (spec section 4.3). -/

/-- The possible time/event sources a service can be wired over. -/
inductive Reactor
  | virtualClock
  | wallClock
  | memoryReactor
  deriving DecidableEq, Repr

/-- `ClusterStateService(reactor)`, keeping its injected reactor. -/
structure ClusterStateServiceModel where
  reactor : Reactor
  deriving DecidableEq, Repr

/-- `ConfigurationPersistenceService(reactor, path)`, keeping its
injected reactor (the temporary directory is opaque). -/
structure ConfigurationPersistenceServiceModel where
  reactor : Reactor
  deriving DecidableEq, Repr

/-- `ControlAMPService(reactor, cluster_state, persistence_service,
endpoint, context_factory)`, keeping its injected reactor, the two wired
services, and the reactor of the `TCP4ServerEndpoint`. -/
structure ControlAMPServiceModel where
  reactor : Reactor
  cluster_state : ClusterStateServiceModel
  persistence_service : ConfigurationPersistenceServiceModel
  endpoint_reactor : Reactor
  deriving DecidableEq, Repr

/-- `build_control_amp_service` (src lines 115-137) as a function of the
`reactor` argument: when `reactor is None` a fresh virtual
`twisted.internet.task.Clock` is substituted, and that reactor is handed
to `ClusterStateService`, `ConfigurationPersistenceService` and
`ControlAMPService`; the `TCP4ServerEndpoint` is built over a
`MemoryReactor`. -/
def build_control_amp_service (reactor : Option Reactor) : ControlAMPServiceModel :=
  let r := match reactor with
    | none => Reactor.virtualClock
    | some r => r
  let cluster_state : ClusterStateServiceModel := { reactor := r }
  let persistence_service : ConfigurationPersistenceServiceModel := { reactor := r }
  { reactor := r
    cluster_state := cluster_state
    persistence_service := persistence_service
    endpoint_reactor := Reactor.memoryReactor }

/-! ## Helper lemmas about the strategies -/

/-- Nodes generated by `node_strategy` have no manifestations, so the
`dataset_id_node_mapping` loop assigns nothing. -/
theorem dataset_id_node_mapping_of_node_strategy (us : List Uuid) :
    dataset_id_node_mapping (us.map node_strategy) = [] := by
  have h : (us.map node_strategy).map
      (fun n => n.manifestations.map (fun d => (d, n.uuid)))
      = us.map (fun _ => ([] : List (Uuid × Uuid))) := by
    induction us with
    | nil => rfl
    | cons u rest ih => simp [node_strategy, ih]
  rw [dataset_id_node_mapping, h]
  have h2 : (us.map (fun _ => ([] : List (Uuid × Uuid)))).flatten = [] := by
    induction us with
    | nil => rfl
    | cons u rest ih => simp [ih]
  rw [h2]
  rfl

/-- `deployment_strategy` never dies: the lease-index set is drawn only
when `dataset_id_node_mapping` is non-empty, and that mapping is always
empty, so the `TypeError`-raising branch is unreachable and the
resulting Deployment has no leases. -/
theorem deployment_strategy_eq (draw : DeploymentDraw) :
    deployment_strategy draw
      = Except.ok
          { nodes := pyDict ((draw.nodeUuids.map node_strategy).map (fun n => (n.uuid, n)))
            leases := []
            persistent_state := PersistentState.mk [] } := by
  rw [deployment_strategy]
  simp [dataset_id_node_mapping_of_node_strategy, persistent_state_strategy, pyDict]

/-! ## Persister behaviour lemmas -/

/-- On a dataset with no binding, `record_ownership` succeeds and appends
the new binding. -/
theorem record_ownership_fresh (s : Ledger) (d : Uuid) (h : BlockdeviceId)
    (hlk : lookupPy s d = none) :
    record_ownership s d h = (Except.ok (), s ++ [(d, h)]) := by
  simp [record_ownership, hlk]

/-- On a dataset already bound to the SAME blockdevice id,
`record_ownership` succeeds and leaves the ledger unchanged. -/
theorem record_ownership_same (s : Ledger) (d : Uuid) (h : BlockdeviceId)
    (hlk : lookupPy s d = some h) :
    record_ownership s d h = (Except.ok (), s) := by
  simp [record_ownership, hlk]

/-- On a dataset already bound to a DIFFERENT blockdevice id,
`record_ownership` fails with `DatasetAlreadyOwned` and leaves the ledger
unchanged. -/
theorem record_ownership_already_owned (s : Ledger) (d : Uuid)
    (h h2 : BlockdeviceId) (hlk : lookupPy s d = some h) (hne : h ≠ h2) :
    record_ownership s d h2 = (Except.error PersistError.datasetAlreadyOwned, s) := by
  simp [record_ownership, hlk, hne]

/-- After any successful `record_ownership s d h`, the resulting ledger
maps `d` to `h`. -/
theorem record_ownership_ok_lookup (s s1 : Ledger) (d : Uuid) (h : BlockdeviceId)
    (hc : record_ownership s d h = (Except.ok (), s1)) :
    lookupPy s1 d = some h := by
  cases hlk : lookupPy s d with
  | none =>
      rw [record_ownership_fresh s d h hlk] at hc
      injection hc with h1 h2
      subst h2
      rw [lookupPy_append, hlk]
      simp [lookupPy, Option.orElse]
  | some existing =>
      by_cases he : existing = h
      · subst he
        rw [record_ownership_same s d existing hlk] at hc
        injection hc with h1 h2
        subst h2
        exact hlk
      · rw [record_ownership_already_owned s d existing h hlk he] at hc
        injection hc with h1 h2
        exact absurd h1 (by simp)

/-! ## Claims about the state persister -/

/-- Claim C1: after a successful `record_ownership(d, h)`, a call
`record_ownership(d, h2)` with `h2 ≠ h` fails with `DatasetAlreadyOwned`
and the visible state afterwards still maps `d` to `h` — the ledger is
unchanged by the failed call; and this is what the conformance suite's
`test_duplicate_blockdevice_id` asserts. -/
theorem record_ownership_second_write_rejected :
    test_duplicate_blockdevice_id record_ownership ∧
    ∀ (d : Uuid) (h h2 : BlockdeviceId) (s s1 : Ledger), h ≠ h2 →
      record_ownership s d h = (Except.ok (), s1) →
      record_ownership s1 d h2 = (Except.error PersistError.datasetAlreadyOwned, s1) ∧
      lookupPy s1 d = some h := by
  have main : ∀ (d : Uuid) (h h2 : BlockdeviceId) (s s1 : Ledger), h ≠ h2 →
      record_ownership s d h = (Except.ok (), s1) →
      record_ownership s1 d h2 = (Except.error PersistError.datasetAlreadyOwned, s1) ∧
      lookupPy s1 d = some h := by
    intro d h h2 s s1 hne hc
    have hlk := record_ownership_ok_lookup s s1 d h hc
    exact ⟨record_ownership_already_owned s1 d h h2 hlk hne, hlk⟩
  refine ⟨?_, main⟩
  intro d h h2 hne
  have hfresh : record_ownership [] d h = (Except.ok (), [(d, h)]) :=
    record_ownership_fresh [] d h rfl
  have hmain := main d h h2 [] [(d, h)] hne hfresh
  rw [hfresh]
  exact ⟨rfl, by rw [hmain.1], by rw [hmain.1]; exact hmain.2⟩

/-- Witness for C1 at `d = 0`, `h = "a"`, `h2 = "b"` from the fresh
ledger. -/
theorem record_ownership_second_write_rejected_witness :
    record_ownership [(0, "a")] 0 "b"
        = (Except.error PersistError.datasetAlreadyOwned, [(0, "a")]) ∧
    lookupPy [(0, "a")] 0 = some "a" :=
  record_ownership_second_write_rejected.2 0 "a" "b" [] [(0, "a")]
    (by decide) (record_ownership_fresh [] 0 "a" rfl)

/-- Claim C2: against a fresh persister, the first `record_ownership(d, h)`
succeeds and the persisted state's `blockdevice_ownership` then maps `d`
to `h` — the property `test_records_blockdeviceid` asserts. -/
theorem record_ownership_first_write_visible :
    test_records_blockdeviceid record_ownership := by
  intro d h
  have hfresh : record_ownership [] d h = (Except.ok (), [(d, h)]) :=
    record_ownership_fresh [] d h rfl
  rw [hfresh]
  exact ⟨rfl, by simp [lookupPy]⟩

/-- Claim C3 (amended): repeating `record_ownership` with the identical
`(dataset_id, blockdevice_id)` pair succeeds and leaves the ledger
unchanged. -/
theorem record_ownership_idempotent :
    ∀ (d : Uuid) (h : BlockdeviceId) (s s1 : Ledger),
      record_ownership s d h = (Except.ok (), s1) →
      record_ownership s1 d h = (Except.ok (), s1) := by
  intro d h s s1 hc
  exact record_ownership_same s1 d h (record_ownership_ok_lookup s s1 d h hc)

/-- Witness for C3 at `d = 0`, `h = "a"` from the fresh ledger. -/
theorem record_ownership_idempotent_witness :
    record_ownership [(0, "a")] 0 "a" = (Except.ok (), [(0, "a")]) :=
  record_ownership_idempotent 0 "a" [] [(0, "a")]
    (record_ownership_fresh [] 0 "a" rfl)

/-- Counterexample for C3's second half: a persister that is NOT
idempotent — it rejects a repeated `record_ownership` even with the
identical blockdevice id — nevertheless passes every property the
conformance suite produced by `make_istatepersister_tests` checks
(`test_duplicate_blockdevice_id` starts with
`assume(blockdevice_id != other_blockdevice_id)` and so never exercises
the identical pair).  Hence the suite does not check idempotence. -/
theorem istatepersister_suite_misses_idempotence :
    istatepersister_suite rejectRepeatPersister ∧
    ¬ (∀ (d : Uuid) (h : BlockdeviceId) (s s1 : Ledger),
        rejectRepeatPersister s d h = (Except.ok (), s1) →
        rejectRepeatPersister s1 d h = (Except.ok (), s1)) := by
  constructor
  · constructor
    · intro d h
      simp [rejectRepeatPersister, lookupPy]
    · intro d h h2 hne
      refine ⟨?_, ?_, ?_⟩ <;> simp [rejectRepeatPersister, lookupPy]
  · intro hidem
    have h1 : rejectRepeatPersister [] 0 "a" = (Except.ok (), [(0, "a")]) := by
      simp [rejectRepeatPersister, lookupPy]
    have h2 := hidem 0 "a" [] [(0, "a")] h1
    simp [rejectRepeatPersister, lookupPy] at h2

/-! ## Claims about the strategies and the service wiring -/

/-- Claim C4: every Deployment produced by `deployment_strategy` has a
leases mapping whose dataset-id keys are unique and where each key
equals the `dataset_id` field of the Lease it maps to. -/
theorem deployment_strategy_lease_keys (draw : DeploymentDraw) (dep : Deployment)
    (hc : deployment_strategy draw = Except.ok dep) :
    (dep.leases.map Prod.fst).Nodup ∧ ∀ p ∈ dep.leases, p.1 = p.2.dataset_id := by
  rw [deployment_strategy_eq] at hc
  injection hc with hdep
  subst hdep
  exact ⟨List.nodup_nil, fun p hp => absurd hp (List.not_mem_nil p)⟩

/-- Witness for C4 at the draw with one node of uuid 0. -/
theorem deployment_strategy_lease_keys_witness :
    ((Deployment.mk [(0, node_strategy 0)] [] (PersistentState.mk [])).leases.map
        Prod.fst).Nodup ∧
    ∀ p ∈ (Deployment.mk [(0, node_strategy 0)] [] (PersistentState.mk [])).leases,
      p.1 = p.2.dataset_id :=
  deployment_strategy_lease_keys ⟨[0], [], 0⟩
    (Deployment.mk [(0, node_strategy 0)] [] (PersistentState.mk [])) rfl

/-- Claim C5: every Deployment drawn from `deployment_strategy` satisfies
the cross-reference invariants by construction — each Lease's `node_id`
is the uuid of a Node present in the nodes mapping whose manifestations
include the leased dataset — and the draw never fails while constructing
the leases. -/
theorem deployment_strategy_cross_references (draw : DeploymentDraw) :
    ∃ dep, deployment_strategy draw = Except.ok dep ∧
      ∀ p ∈ dep.leases, ∃ q ∈ dep.nodes,
        q.2.uuid = p.2.node_id ∧ p.2.dataset_id ∈ q.2.manifestations := by
  refine ⟨_, deployment_strategy_eq draw, ?_⟩
  intro p hp
  exact absurd hp (List.not_mem_nil p)

/-- Claim C6: the lease-selection step of `deployment_strategy` is
order-independent: for the same drawn nodes and the same drawn lease
indexes, any two iteration orders of the `dataset_id_node_mapping`
container select the same `(dataset_id, node_uuid)` pairs. -/
theorem deployment_strategy_selection_order_independent
    (us : List Uuid) (items1 items2 : List (Uuid × Uuid)) (lease_indexes : List Nat)
    (h1 : items1.Perm (dataset_id_node_mapping (us.map node_strategy)))
    (h2 : items2.Perm (dataset_id_node_mapping (us.map node_strategy))) :
    selected_lease_pairs items1 lease_indexes
      = selected_lease_pairs items2 lease_indexes := by
  rw [dataset_id_node_mapping_of_node_strategy] at h1 h2
  rw [List.perm_nil.mp h1, List.perm_nil.mp h2]

/-- Witness for C6 with one drawn node of uuid 5 and indexes `[0, 1]`. -/
theorem deployment_strategy_selection_order_independent_witness :
    selected_lease_pairs [] [0, 1] = selected_lease_pairs [] [0, 1] :=
  deployment_strategy_selection_order_independent [5] [] [] [0, 1]
    (by rw [dataset_id_node_mapping_of_node_strategy])
    (by rw [dataset_id_node_mapping_of_node_strategy])

/-- Claim C7: called with `reactor=None`, `build_control_amp_service`
wires the ClusterStateService, the ConfigurationPersistenceService and
the returned ControlAMPService over the injected virtual Clock, not the
global wall-clock reactor. -/
theorem build_control_amp_service_uses_virtual_clock :
    (build_control_amp_service none).cluster_state.reactor = Reactor.virtualClock ∧
    (build_control_amp_service none).persistence_service.reactor = Reactor.virtualClock ∧
    (build_control_amp_service none).reactor = Reactor.virtualClock ∧
    (build_control_amp_service none).reactor ≠ Reactor.wallClock := by
  refine ⟨rfl, rfl, rfl, by decide⟩

/-- Claim C8: every Deployment drawn from `deployment_strategy` has an
empty leases mapping: the generated nodes carry no manifestations, so
`dataset_id_node_mapping` is always empty, no lease indexes are used,
and no leases are generated. -/
theorem deployment_strategy_leases_empty (draw : DeploymentDraw) :
    dataset_id_node_mapping (draw.nodeUuids.map node_strategy) = [] ∧
    ∃ dep, deployment_strategy draw = Except.ok dep ∧ dep.leases = [] :=
  ⟨dataset_id_node_mapping_of_node_strategy _, _, deployment_strategy_eq draw, rfl⟩

/-- Claim C9: `persistent_state_strategy` is constant — every draw
yields the empty `PersistentState()` — and consequently every Deployment
drawn from `deployment_strategy` carries an empty ownership ledger. -/
theorem persistent_state_strategy_constant :
    (∀ e1 e2 : Nat, persistent_state_strategy e1 = persistent_state_strategy e2) ∧
    (∀ e : Nat, (persistent_state_strategy e).blockdevice_ownership = []) ∧
    ∀ (draw : DeploymentDraw) (dep : Deployment),
      deployment_strategy draw = Except.ok dep →
      dep.persistent_state.blockdevice_ownership = [] := by
  refine ⟨fun e1 e2 => rfl, fun e => rfl, fun draw dep hc => ?_⟩
  rw [deployment_strategy_eq] at hc
  injection hc with hdep
  subst hdep
  rfl

/-- Witness for C9 at the draw with one node of uuid 0. -/
theorem persistent_state_strategy_constant_witness :
    (Deployment.mk [(0, node_strategy 0)] []
        (PersistentState.mk [])).persistent_state.blockdevice_ownership = [] :=
  persistent_state_strategy_constant.2.2 ⟨[0], [], 0⟩
    (Deployment.mk [(0, node_strategy 0)] [] (PersistentState.mk [])) rfl

/-- Claim C10: every Deployment drawn from `deployment_strategy` has a
nodes mapping sending each key `u` to a Node whose uuid is `u`; its key
set is exactly the set of uuids of the drawn node list; duplicate uuids
are resolved in favour of the later drawn node; and a draw with
duplicated uuids yields a mapping smaller than `min_number_of_nodes`. -/
theorem deployment_strategy_nodes_mapping :
    (∀ (draw : DeploymentDraw) (dep : Deployment),
        deployment_strategy draw = Except.ok dep →
        (∀ p ∈ dep.nodes, p.2.uuid = p.1) ∧
        (∀ u : Uuid, u ∈ dep.nodes.map Prod.fst ↔ u ∈ draw.nodeUuids) ∧
        (∀ u : Uuid, lookupPy dep.nodes u
            = lastAssoc ((draw.nodeUuids.map node_strategy).map (fun n => (n.uuid, n))) u)) ∧
    ∃ (draw : DeploymentDraw) (dep : Deployment),
      drawValid draw 2 ∧ deployment_strategy draw = Except.ok dep ∧
      dep.nodes.length < 2 := by
  constructor
  · intro draw dep hc
    rw [deployment_strategy_eq] at hc
    injection hc with hdep
    subst hdep
    refine ⟨?_, ?_, ?_⟩
    · intro p hp
      rcases List.mem_map.mp (mem_pyDict _ p hp) with ⟨n, hn, hpn⟩
      rw [← hpn]
    · intro u
      rw [keys_pyDict]
      simp [List.map_map, Function.comp, node_strategy]
    · intro u
      exact lookupPy_pyDict _ u
  · refine ⟨⟨[0, 0], [], 0⟩,
      Deployment.mk [(0, node_strategy 0)] [] (PersistentState.mk []),
      ⟨by decide, by decide⟩, rfl, by decide⟩

/-- Witness for C10 at the draw with one node of uuid 7. -/
theorem deployment_strategy_nodes_mapping_witness :
    (∀ p ∈ (Deployment.mk [(7, node_strategy 7)] [] (PersistentState.mk [])).nodes,
        p.2.uuid = p.1) ∧
    ((7 : Uuid) ∈ (Deployment.mk [(7, node_strategy 7)] []
        (PersistentState.mk [])).nodes.map Prod.fst ↔ (7 : Uuid) ∈ [(7 : Uuid)]) :=
  ⟨(deployment_strategy_nodes_mapping.1 ⟨[7], [], 0⟩
      (Deployment.mk [(7, node_strategy 7)] [] (PersistentState.mk [])) rfl).1,
   (deployment_strategy_nodes_mapping.1 ⟨[7], [], 0⟩
      (Deployment.mk [(7, node_strategy 7)] [] (PersistentState.mk [])) rfl).2.1 7⟩
